import Mathlib

/-!
Shallow embedding of `finance_agent/news_bot.py` (class `NewsBot`), the
session-scoped conversational task engine with recurring job scheduling.

The source file contains two merge-conflict variants; this development embeds
the first (HEAD) variant, the multi-schedule one, which is the variant all
line references of the claims point at and the variant the specification
follows.

Conventions of the embedding:
* Python strings are Lean `String`; `str.strip` is `String.trim`,
  `str.lower` is charwise `Char.toLower` (the inputs exercised here are
  Korean text and ASCII, on which these agree with Python), and `str.isdigit`
  is `Char.isDigit`, sound for ASCII text only; theorems that quantify over
  inputs and count digits therefore carry an all-ASCII-input hypothesis,
  since Python would also count non-ASCII Unicode digit characters.
* The mutable `conversation_state` dict is an association list threaded
  through every operation; `schedule.Scheduler` (the external `schedule`
  library, used via `every().day.at(t).do(h).tag(...)`,
  `every(7).days.do(h).tag(...)`, `clear(tag)` and `run_pending()`) is
  modelled as a list of jobs at minute granularity.
* The external collaborators (Language Model Service, News Store) may raise;
  they are modelled as `Except String`-valued functions, and every NewsBot
  operation that (transitively) calls them runs in `Except String`.  On an
  error the model discards the partial mutations of the failing turn; no
  claim observes state after an uncaught exception.
-/

/-- One article record returned by the News Store: a Python dict with
optional `title`, `link`, `content` keys. -/
structure Article where
  title : Option String
  link : Option String
  content : Option String
deriving DecidableEq

/-- Modelled from the spec: the external collaborators (Language Model
Service and News Store, §1/§6), opaque functions that may raise.  The
concrete `LLM` and `NewsDatabaseManager` classes are not under `src/`. -/
structure Collab where
  searchNews : String → Except String (List Article)
  fetchContent : String → Except String String
  llmRun : String → Except String String

/-- Modelled from the spec: prompt templating is pure string formatting and
out of scope (§1); `finance_agent/prompts.py` is not under `src/`.  Any
injective-enough concatenation serves, since no claim depends on its text. -/
def news_summary_prompt (title content url : String) : String :=
  title ++ "\n" ++ content ++ "\n" ++ url

/-- A Schedule record: one element of `session_state["schedules"]`. -/
structure Schedule where
  company_name : String
  schedule_time : String
deriving DecidableEq

/-- The `step` strings the source ever stores in a task dict. -/
inductive Step where
  | awaitingCompanyName
  | awaitingScheduleTime
  | awaitingCancellationChoice
  | awaitingCancellationConfirmation
  | awaitingReportTestChoice
deriving DecidableEq

/-- The `current_task` dict: a `step` plus the optional keys the source
writes (`company_name`, `schedule_time`, `company_to_cancel`). -/
structure PendingTask where
  step : Step
  company_name : Option String := none
  schedule_time : Option String := none
  company_to_cancel : Option String := none
deriving DecidableEq

/-- One session's state: `{"schedules": [...], "current_task": ...}`. -/
structure SessionState where
  schedules : List Schedule
  current_task : Option PendingTask
deriving DecidableEq

/-- The `conversation_state` dict, keyed by session id (insertion order). -/
abbrev ConvState := List (String × SessionState)

/-- Dict lookup in `conversation_state` (string-keyed, by key equality). -/
def lookupSession : ConvState → String → Option SessionState
  | [], _ => none
  | (k, v) :: rest, sid => if k = sid then some v else lookupSession rest sid

/-- Overwrite the entry of `sid` (present by construction at every use). -/
def setSession (cs : ConvState) (sid : String) (st : SessionState) : ConvState :=
  cs.map (fun p => if p.1 = sid then (sid, st) else p)

/-- The fresh value `_get_session_state` installs for an unknown id. -/
def defaultSession : SessionState :=
  { schedules := [], current_task := none }

/-- `_get_session_state`: return the session's state, inserting a default
entry first when the id is not yet a key of `conversation_state`. -/
def get_session_state (cs : ConvState) (sid : String) : SessionState × ConvState :=
  match lookupSession cs sid with
  | some st => (st, cs)
  | none => (defaultSession, cs ++ [(sid, defaultSession)])

/-! ### The `schedule` library, as the source uses it -/

/-- Job kind: the source registers one daily and one weekly job per
completed scheduling dialogue. -/
inductive JobKind where
  | daily
  | weekly
deriving DecidableEq

/-- One job of the `schedule.Scheduler`: its tag set (kept as a list), its
kind, the handler's bound arguments, the daily at-time when present, and the
due time / period in minutes. -/
structure Job where
  tags : List String
  kind : JobKind
  sessionId : String
  companyName : String
  atTime : Option String
  nextRun : Nat
  period : Nat
deriving DecidableEq

/-- The scheduler: the library keeps its jobs in a plain list; `do` appends
and never deduplicates. -/
structure Scheduler where
  jobs : List Job
deriving DecidableEq

/-- Minutes-of-day of an `"HH:MM"` string (0 for a malformed field; only
reached for at-times that passed `isValidAtTime` below, where both fields
parse). -/
def parseHM (t : String) : Nat :=
  match t.splitOn ":" with
  | [h, m] => (h.toNat?.getD 0) * 60 + (m.toNat?.getD 0)
  | _ => 0

/-- Next occurrence of time-of-day `t` strictly after-or-at `now`
(minute-granularity model of the library's daily at-time computation). -/
def nextDailyRun (now : Nat) (t : String) : Nat :=
  let today := (now / 1440) * 1440 + parseHM t
  if now < today then today else today + 1440

/-- The daily job `_schedule_jobs` installs:
`every().day.at(t).do(_send_daily_summary, ...).tag(session_id, company_name, 'daily')`. -/
def mkDailyJob (now : Nat) (sid name t : String) : Job :=
  { tags := [sid, name, "daily"], kind := JobKind.daily, sessionId := sid,
    companyName := name, atTime := some t, nextRun := nextDailyRun now t,
    period := 1440 }

/-- The weekly job `_schedule_jobs` installs:
`every(7).days.do(_send_weekly_report, ...).tag(session_id, company_name, 'weekly')`. -/
def mkWeeklyJob (now : Nat) (sid name : String) : Job :=
  { tags := [sid, name, "weekly"], kind := JobKind.weekly, sessionId := sid,
    companyName := name, atTime := none, nextRun := now + 7 * 1440,
    period := 7 * 1440 }

/-- Hour field of a daily at-time: the library regex `[0-2]\d` plus its
`0 <= hour <= 23` range check. -/
def isHourChars (h1 h2 : Char) : Bool :=
  48 ≤ h1.toNat && h1.toNat ≤ 50 && h2.isDigit &&
    (10 * (h1.toNat - 48) + (h2.toNat - 48) ≤ 23)

/-- Minute/second field of a daily at-time: the library regex `[0-5]\d`. -/
def isMinSecChars (a b : Char) : Bool :=
  48 ≤ a.toNat && a.toNat ≤ 53 && b.isDigit

/-- The `schedule` library's validation of a daily at-time in
`Job.at(time_str)`: the regex `[0-2]\d:[0-5]\d(:[0-5]\d)?` together with
the `0 <= hour <= 23` check; anything else raises `ScheduleValueError`. -/
def isValidAtTime (t : String) : Bool :=
  match t.data with
  | [h1, h2, c, m1, m2] => c == ':' && isHourChars h1 h2 && isMinSecChars m1 m2
  | [h1, h2, c, m1, m2, d, s1, s2] =>
    c == ':' && d == ':' && isHourChars h1 h2 && isMinSecChars m1 m2 && isMinSecChars s1 s2
  | _ => false

/-- `_schedule_jobs(session_id, company_name, schedule_time)`: two `do`
calls, each appending one job to the scheduler's list.  The first call's
`every().day.at(schedule_time)` validates the at-time and raises
`ScheduleValueError` on an invalid one, before anything is appended — the
weekly registration on the next source line is then never reached. -/
def schedule_jobs (sch : Scheduler) (now : Nat) (sid name t : String) :
    Except String Scheduler :=
  if isValidAtTime t then
    Except.ok { jobs := sch.jobs ++ [mkDailyJob now sid name t, mkWeeklyJob now sid name] }
  else Except.error "ScheduleValueError: invalid daily at-time"

/-- `Scheduler.clear(tag)`: with a tag, delete every job carrying it; with
`None` (Python default), delete all jobs. -/
def clearTag (sch : Scheduler) (tag : Option String) : Scheduler :=
  match tag with
  | none => { jobs := [] }
  | some t => { jobs := sch.jobs.filter (fun j => !(j.tags.contains t)) }

/-- The registry-level `cancel(sessionId, subject)` of the spec, as the code
realises it at the cancellation-confirmation step: `scheduler.clear(subject)`
— the session id is not consulted. -/
def cancel (sch : Scheduler) (sessionId subject : String) : Scheduler :=
  clearTag sch (some subject)

/-- `run_pending(now)`: dispatch every job whose due time has elapsed and
advance each dispatched job by its period.  Returns the dispatched jobs
(the observable: which handlers fire) and the new scheduler. -/
def run_pending (sch : Scheduler) (now : Nat) : List Job × Scheduler :=
  (sch.jobs.filter (fun j => j.nextRun ≤ now),
   { jobs := sch.jobs.map (fun j =>
       if j.nextRun ≤ now then { j with nextRun := j.nextRun + j.period } else j) })

/-- Iterated `run_pending` over a sequence of tick times, accumulating every
dispatched job (the scheduler loop of §4.4 with no interleaved mutation). -/
def runDueSeq (sch : Scheduler) : List Nat → List Job × Scheduler
  | [] => ([], sch)
  | t :: ts =>
    let p := run_pending sch t
    let q := runDueSeq p.2 ts
    (p.1 ++ q.1, q.2)

/-- Jobs of a scheduler carrying both the session tag and the subject tag. -/
def taggedJobs (sch : Scheduler) (sid name : String) : List Job :=
  sch.jobs.filter (fun j => j.tags.contains sid && j.tags.contains name)

/-! ### String helpers mirroring the Python idioms -/

/-- Python `pat in s` on strings: contiguous substring occurrence. -/
def occursIn (pat : List Char) : List Char → Bool
  | [] => pat.isEmpty
  | c :: rest => pat.isPrefixOf (c :: rest) || occursIn pat rest

/-- Python `pat in s` lifted to `String`. -/
def strContains (s pat : String) : Bool :=
  occursIn pat.data s.data

/-- The negative-intent keywords of the `awaiting_schedule_time` step. -/
def cancel_keywords : List String := ["아니", "취소", "필요없어"]

/-- `any(keyword in user_input for keyword in ['아니', '취소', '필요없어'])`. -/
def containsAnyCancel (s : String) : Bool :=
  cancel_keywords.any (fun kw => strContains s kw)

/-- The affirmative keywords of the confirmation steps. -/
def affirmatives : List String := ["네", "예", "응", "맞아"]

/-- Python `str.lower`, applied character by character (agrees with Python
on the ASCII and Korean inputs exercised here). -/
def pyLower (s : String) : String :=
  String.mk (s.data.map Char.toLower)

/-- `''.join(filter(str.isdigit, user_input))`, with `str.isdigit` as
`Char.isDigit` — exact on ASCII text; Python additionally counts non-ASCII
Unicode digit characters, so the theorems quantifying over inputs restrict
themselves to all-ASCII inputs. -/
def extractDigits (s : String) : String :=
  String.mk (s.data.filter Char.isDigit)

/-- Strip leading and trailing whitespace from a character list. -/
def trimChars (cs : List Char) : List Char :=
  ((cs.dropWhile Char.isWhitespace).reverse.dropWhile Char.isWhitespace).reverse

/-- Value of a nonempty all-digit character list, else `none`. -/
def digitsVal (cs : List Char) : Option Nat :=
  if cs ≠ [] ∧ cs.all Char.isDigit then
    some (cs.foldl (fun a c => 10 * a + (c.toNat - 48)) 0)
  else none

/-- Python `int(s)` as the choice steps use it: strip whitespace, optional
sign, decimal digits; `none` models the `ValueError` the `except` catches
(digit-grouping underscores are not modelled; no input here uses them). -/
def pyInt (s : String) : Option Int :=
  match trimChars s.data with
  | [] => none
  | c :: rest =>
    if c = '-' then (digitsVal rest).map (fun n => -(n : Int))
    else if c = '+' then (digitsVal rest).map (fun n => (n : Int))
    else (digitsVal (c :: rest)).map (fun n => (n : Int))

/-- Python `a or b` for an optional string `a` (falsy when missing or
empty), with an effectful fallback. -/
def pyOrStr (o : Option String) (fallback : Except String String) :
    Except String String :=
  match o with
  | some s => if s = "" then fallback else Except.ok s
  | none => fallback

/-! ### Article Summarizer -/

/-- `_fetch_and_summarize_latest_news(company_name)`: search today's news
(limit 1), fall back to a content fetch for a missing/empty body, summarize
via the Language Model Service.  The source wraps none of the collaborator
calls in try/except, so their errors propagate. -/
def fetch_and_summarize_latest_news (c : Collab) (company_name : String) :
    Except String (String × Bool) := do
  let news_list ← c.searchNews company_name
  match news_list with
  | [] => return ("관련 뉴스를 찾지 못했습니다.", false)
  | latest_news :: _ =>
    let title := latest_news.title.getD "제목 없음"
    let url := latest_news.link.getD ""
    let content ← pyOrStr latest_news.content (c.fetchContent url)
    if content = "" then
      return ("\x27" ++ title ++ "\x27 뉴스의 본문 내용을 가져올 수 없어 요약에 실패했습니다.", false)
    else
      let summary ← c.llmRun (news_summary_prompt title content url)
      return (summary ++ "\n출처: " ++ url, true)

/-! ### The NewsBot object -/

/-- The mutable fields of `NewsBot` the claims observe: the scheduler and
the `conversation_state` dict.  (`llm` and `news_db` are the collaborators,
passed explicitly to the operations that use them.) -/
structure NewsBot where
  scheduler : Scheduler
  conv : ConvState
deriving DecidableEq

/-- Reply of `handle_message` when the session has no current task. -/
def msg_idle : String :=
  "진행 중인 작업이 없습니다. \x27뉴스 스케줄링\x27 등으로 시작해주세요."

/-- Reply of `start_conversation`. -/
def msg_start : String :=
  "알겠습니다. 어느 회사의 뉴스를 스케줄링할까요? 회사명을 입력해주세요."

/-- Reply when a session has no registered schedules to cancel. -/
def msg_no_schedules : String := "현재 등록된 스케줄이 없습니다."

/-- Reply of `trigger_weekly_report` with no registered schedules. -/
def msg_register_first : String :=
  "먼저 뉴스 스케줄링을 등록해야 테스트할 수 있습니다."

/-- Format-error reply of the `awaiting_schedule_time` step. -/
def msg_time_format : String :=
  "시간 형식이 올바르지 않습니다. \x2709:00\x27, \x2714:30\x27 와 같이 입력해주세요."

/-- Reply clearing an in-progress scheduling dialogue. -/
def msg_setup_cancelled : String := "알겠습니다. 스케줄링을 취소합니다."

/-- Non-numeric-input reply of the choice steps. -/
def msg_enter_number : String := "숫자로 입력해주세요."

/-- Out-of-range reply of the choice steps. -/
def msg_bad_number : String := "잘못된 번호입니다. 다시 입력해주세요."

/-- Reply declining a cancellation confirmation. -/
def msg_keep : String := "알겠습니다. 스케줄을 유지합니다."

/-- The confirmation question naming the cancellation target. -/
def confirmCancelQuestion (c : String) : String :=
  "알겠습니다. \x27" ++ c ++ "\x27 뉴스의 정기 알림을 취소하시겠습니까? (\x27네\x27 또는 \x27아니오\x27)"

/-- The confirmation that a subject's recurring jobs were cancelled. -/
def cancelledMsg (c : String) : String :=
  "\x27" ++ c ++ "\x27 뉴스의 정기 알림이 취소되었습니다."

/-- The manual weekly-report confirmation. -/
def reportTestDone (c : String) : String :=
  "\x27" ++ c ++ "\x27에 대한 주간 보고서 생성을 수동으로 실행했습니다. (콘솔 확인)"

/-- The summary-plus-time-prompt reply of the `awaiting_company_name` step. -/
def summaryReply (c s : String) : String :=
  "📰 " ++ c ++ " 최신 뉴스 요약:\n" ++ s ++
    "\n\n매일 몇 시에 \x27" ++ c ++
    "\x27의 최신 뉴스를 요약해드릴까요? (예: \x2709:00\x27, \x2714:30\x27, 원하지 않으면 \x27아니\x27 또는 \x27취소\x27)"

/-- `"\n".join(f"{i+1}. {s['company_name']} ({s['schedule_time']})" ...)`. -/
def scheduleOptions (ss : List Schedule) : String :=
  String.intercalate "\n" (ss.enum.map (fun q =>
    toString (q.1 + 1) ++ ". " ++ q.2.company_name ++ " (" ++ q.2.schedule_time ++ ")"))

/-- `"\n".join(f"{i+1}. {s['company_name']}" ...)`. -/
def companyOptions (ss : List Schedule) : String :=
  String.intercalate "\n" (ss.enum.map (fun q =>
    toString (q.1 + 1) ++ ". " ++ q.2.company_name))

/-- Python `f"{x}"` for an optional string (`None` prints as `"None"`). -/
def optRepr (o : Option String) : String :=
  match o with
  | some s => s
  | none => "None"

/-- Placeholder handed to `List.getD`; every index is bounds-checked before
the list is read, so this value is never the result. -/
def dummySchedule : Schedule := { company_name := "", schedule_time := "" }

/-- `start_conversation(session_id)`: unconditionally install a fresh
`awaiting_company_name` task. -/
def start_conversation (bot : NewsBot) (sid : String) : String × NewsBot :=
  let p := get_session_state bot.conv sid
  let st' := { p.1 with current_task := some { step := Step.awaitingCompanyName } }
  (msg_start, { bot with conv := setSession p.2 sid st' })

/-- `start_cancellation(session_id)`: no schedules → clear the task and
report nothing to cancel; one schedule → jump to confirmation for it;
several → ask for a 1-based choice. -/
def start_cancellation (bot : NewsBot) (sid : String) : String × NewsBot :=
  let p := get_session_state bot.conv sid
  let st := p.1
  match st.schedules with
  | [] =>
    let st' := { st with current_task := none }
    (msg_no_schedules, { bot with conv := setSession p.2 sid st' })
  | [s] =>
    let task' : PendingTask :=
      { step := Step.awaitingCancellationConfirmation,
        company_to_cancel := some s.company_name }
    let st' := { st with current_task := some task' }
    (confirmCancelQuestion s.company_name, { bot with conv := setSession p.2 sid st' })
  | _ =>
    let st' := { st with current_task := some { step := Step.awaitingCancellationChoice } }
    ("어떤 스케줄을 취소하시겠습니까? 번호를 입력해주세요.\n" ++ scheduleOptions st.schedules,
      { bot with conv := setSession p.2 sid st' })

/-- `trigger_weekly_report(session_id)`: no schedules → hint to register
first (task untouched); one schedule → run the report now (a spawned
thread, no bot-state effect) and leave the task untouched; several → set an
`awaiting_report_test_choice` task. -/
def trigger_weekly_report (bot : NewsBot) (sid : String) : String × NewsBot :=
  let p := get_session_state bot.conv sid
  let st := p.1
  match st.schedules with
  | [] => (msg_register_first, { bot with conv := p.2 })
  | [s] => (reportTestDone s.company_name, { bot with conv := p.2 })
  | _ =>
    let st' := { st with current_task := some { step := Step.awaitingReportTestChoice } }
    ("어떤 회사의 주간 보고서를 테스트하시겠습니까? 번호를 입력해주세요.\n" ++ companyOptions st.schedules,
      { bot with conv := setSession p.2 sid st' })

/-- Lines 108–112 of the source: store the parsed time, append the Schedule
record, register the daily and weekly jobs, clear the task, confirm.
(`task["company_name"]` is a plain dict access: a missing key raises, a
path unreachable from the real dialogue flows.) -/
def finish_scheduling (now : Nat) (bot : NewsBot) (conv1 : ConvState) (sid : String)
    (st : SessionState) (task : PendingTask) (t : String) :
    Except String (String × NewsBot) :=
  match task.company_name with
  | none => Except.error "KeyError: company_name"
  | some cname => do
    let st' : SessionState :=
      { st with schedules := st.schedules ++ [{ company_name := cname, schedule_time := t }],
                current_task := none }
    let sch' ← schedule_jobs bot.scheduler now sid cname t
    Except.ok ("알겠습니다. 매일 " ++ t ++ "에 " ++ cname ++ " 뉴스를 보내드릴게요.",
      { scheduler := sch', conv := setSession conv1 sid st' })

/-- `handle_message(session_id, user_input)`: the step dispatcher of the
Session Conversation State Machine (lines 82–152 of the source). -/
def handle_message (c : Collab) (now : Nat) (bot : NewsBot) (sid user_input : String) :
    Except String (String × NewsBot) :=
  let p := get_session_state bot.conv sid
  let st := p.1
  let conv1 := p.2
  match st.current_task with
  | none => Except.ok (msg_idle, { bot with conv := conv1 })
  | some task =>
    match task.step with
    | Step.awaitingCompanyName => do
      let cname := user_input.trim
      let task1 := { task with company_name := some cname }
      let r ← fetch_and_summarize_latest_news c cname
      if r.2 then
        let st' := { st with current_task := some { task1 with step := Step.awaitingScheduleTime } }
        Except.ok (summaryReply cname r.1, { bot with conv := setSession conv1 sid st' })
      else
        let st' := { st with current_task := none }
        Except.ok (r.1, { bot with conv := setSession conv1 sid st' })
    | Step.awaitingScheduleTime =>
      if containsAnyCancel user_input then
        let st' := { st with current_task := none }
        Except.ok (msg_setup_cancelled, { bot with conv := setSession conv1 sid st' })
      else
        let ds := extractDigits user_input
        if ds.length = 2 then
          finish_scheduling now bot conv1 sid st task (ds ++ ":00")
        else if ds.length = 4 then
          finish_scheduling now bot conv1 sid st task (ds.take 2 ++ ":" ++ ds.drop 2)
        else
          Except.ok (msg_time_format, { bot with conv := conv1 })
    | Step.awaitingCancellationChoice =>
      match pyInt user_input with
      | none => Except.ok (msg_enter_number, { bot with conv := conv1 })
      | some n =>
        let choice_idx := n - 1
        if 0 ≤ choice_idx ∧ choice_idx < (st.schedules.length : Int) then
          let company_to_cancel :=
            (st.schedules.getD choice_idx.toNat dummySchedule).company_name
          let task' := { task with step := Step.awaitingCancellationConfirmation,
                                   company_to_cancel := some company_to_cancel }
          let st' := { st with current_task := some task' }
          Except.ok (confirmCancelQuestion company_to_cancel,
            { bot with conv := setSession conv1 sid st' })
        else Except.ok (msg_bad_number, { bot with conv := conv1 })
    | Step.awaitingCancellationConfirmation =>
      let cto := task.company_to_cancel
      if affirmatives.contains (pyLower user_input) then
        let st' : SessionState :=
          { st with schedules := st.schedules.filter (fun s => !(some s.company_name == cto)),
                    current_task := none }
        Except.ok (cancelledMsg (optRepr cto),
          { scheduler := clearTag bot.scheduler cto, conv := setSession conv1 sid st' })
      else
        let st' := { st with current_task := none }
        Except.ok (msg_keep, { bot with conv := setSession conv1 sid st' })
    | Step.awaitingReportTestChoice =>
      match pyInt user_input with
      | none => Except.ok (msg_enter_number, { bot with conv := conv1 })
      | some n =>
        let choice_idx := n - 1
        if 0 ≤ choice_idx ∧ choice_idx < (st.schedules.length : Int) then
          let company_to_test :=
            (st.schedules.getD choice_idx.toNat dummySchedule).company_name
          let st' := { st with current_task := none }
          Except.ok (reportTestDone company_to_test,
            { bot with conv := setSession conv1 sid st' })
        else Except.ok (msg_bad_number, { bot with conv := conv1 })

/-! ### Concrete fixtures for counterexamples and witnesses -/

/-- Collaborators that always succeed with empty results. -/
def trivialCollab : Collab :=
  { searchNews := fun _ => Except.ok [],
    fetchContent := fun _ => Except.ok "",
    llmRun := fun _ => Except.ok "" }

/-- A News Store whose search raises. -/
def errCollab : Collab :=
  { searchNews := fun _ => Except.error "boom",
    fetchContent := fun _ => Except.ok "",
    llmRun := fun _ => Except.ok "" }

/-- A registered schedule for the running example subject. -/
def acmeSchedule : Schedule := { company_name := "Acme", schedule_time := "09:00" }

/-- A bot with no scheduler jobs and no sessions. -/
def botFresh : NewsBot := { scheduler := { jobs := [] }, conv := [] }

/-- Session `s1` waiting for a schedule time for `Acme`, with an `Acme`
schedule already registered. -/
def botTimeStep : NewsBot :=
  { scheduler := { jobs := [] },
    conv := [("s1",
      { schedules := [acmeSchedule],
        current_task := some { step := Step.awaitingScheduleTime,
                               company_name := some "Acme" } })] }

/-- Session `s1` waiting for a company name. -/
def botCompanyStep : NewsBot :=
  { scheduler := { jobs := [] },
    conv := [("s1",
      { schedules := [],
        current_task := some { step := Step.awaitingCompanyName } })] }

/-- Session `s1` with one registered schedule and an in-progress dialogue. -/
def botDialogWithSchedule : NewsBot :=
  { scheduler := { jobs := [] },
    conv := [("s1",
      { schedules := [acmeSchedule],
        current_task := some { step := Step.awaitingCompanyName } })] }

/-- A scheduler holding only session `s2`'s jobs for `Acme`. -/
def schedOnlyS2 : Scheduler :=
  { jobs := [mkDailyJob 0 "s2" "Acme" "09:00", mkWeeklyJob 0 "s2" "Acme"] }

/-- The scheduler after registering `(s1, Acme)` twice (at `09:00`, then at
`14:30`); `reregistration_not_idempotent_cex` checks that the two
`schedule_jobs` calls indeed produce it. -/
def schedTwice : Scheduler :=
  { jobs := [mkDailyJob 0 "s1" "Acme" "09:00", mkWeeklyJob 0 "s1" "Acme",
             mkDailyJob 0 "s1" "Acme" "14:30", mkWeeklyJob 0 "s1" "Acme"] }

/-- Three schedules `A`, `B`, `C` for the index-consistency scenario. -/
def schedA : Schedule := { company_name := "AAA", schedule_time := "09:00" }

/-- Second schedule of the index-consistency scenario. -/
def schedB : Schedule := { company_name := "BBB", schedule_time := "10:00" }

/-- Third schedule of the index-consistency scenario. -/
def schedC : Schedule := { company_name := "CCC", schedule_time := "11:00" }

/-- Session `s1` choosing which of three schedules to cancel. -/
def botChoice : NewsBot :=
  { scheduler := { jobs := [] },
    conv := [("s1",
      { schedules := [schedA, schedB, schedC],
        current_task := some { step := Step.awaitingCancellationChoice } })] }

/-- Two sessions: `s1` is confirming cancellation of `Acme`; `s2` has its
own `Acme` schedule and its own `Acme`-tagged jobs. -/
def botTwoSessions : NewsBot :=
  { scheduler := schedOnlyS2,
    conv := [("s1",
      { schedules := [acmeSchedule],
        current_task := some { step := Step.awaitingCancellationConfirmation,
                               company_to_cancel := some "Acme" } }),
      ("s2", { schedules := [acmeSchedule], current_task := none })] }

/-! ### Helper lemmas -/

/-- Membership in a cleared scheduler: survivors come from the original job
list and lack the cleared tag. -/
theorem mem_clearTag {sch : Scheduler} {t : String} {j : Job}
    (h : j ∈ (clearTag sch (some t)).jobs) :
    j ∈ sch.jobs ∧ j.tags.contains t = false := by
  simp only [clearTag, List.mem_filter, Bool.not_eq_true'] at h
  exact h

/-- Clearing a tag carried by no job is the identity. -/
theorem clearTag_eq_self {sch : Scheduler} {t : String}
    (h : ∀ j ∈ sch.jobs, j.tags.contains t = false) :
    clearTag sch (some t) = sch := by
  simp only [clearTag]
  cases sch with
  | mk jobs =>
    congr 1
    simp only
    refine List.filter_eq_self.mpr (fun j hj => ?_)
    have hm : t ∉ j.tags := by simpa using h j hj
    simp [hm]

/-- `run_pending` dispatches only jobs of the scheduler. -/
theorem mem_run_pending_dispatch {sch : Scheduler} {now : Nat} {j : Job}
    (h : j ∈ (run_pending sch now).1) : j ∈ sch.jobs :=
  (List.mem_filter.mp h).1

/-- Rescheduling preserves each job's tag list. -/
theorem mem_run_pending_state {sch : Scheduler} {now : Nat} {j : Job}
    (h : j ∈ (run_pending sch now).2.jobs) :
    ∃ j0 ∈ sch.jobs, j.tags = j0.tags := by
  simp only [run_pending, List.mem_map] at h
  obtain ⟨j0, hj0, heq⟩ := h
  refine ⟨j0, hj0, ?_⟩
  by_cases hle : j0.nextRun ≤ now <;> simp [hle] at heq <;> subst heq <;> rfl

/-- If no job of `sch` carries tag `t`, the same holds after any
`run_pending` tick, and no dispatched job carries `t` either. -/
theorem runDueSeq_no_tag {t : String} (times : List Nat) (sch : Scheduler)
    (h : ∀ j ∈ sch.jobs, j.tags.contains t = false) :
    ∀ j ∈ (runDueSeq sch times).1, j.tags.contains t = false := by
  induction times generalizing sch with
  | nil => intro j hj; simp [runDueSeq] at hj
  | cons t0 ts ih =>
    intro j hj
    simp only [runDueSeq, List.mem_append] at hj
    rcases hj with hj | hj
    · exact h j (mem_run_pending_dispatch hj)
    · refine ih (run_pending sch t0).2 ?_ j hj
      intro j' hj'
      obtain ⟨j0, hj0, htags⟩ := mem_run_pending_state hj'
      rw [htags]
      exact h j0 hj0

/-- Updating one session's entry leaves every other session's lookup
unchanged. -/
theorem lookupSession_setSession_ne (cs : ConvState) (sid sid2 : String) (st : SessionState)
    (h : sid ≠ sid2) :
    lookupSession (setSession cs sid st) sid2 = lookupSession cs sid2 := by
  induction cs with
  | nil => rfl
  | cons p l ih =>
    obtain ⟨a, b⟩ := p
    have hstep : setSession ((a, b) :: l) sid st
        = (if a = sid then (sid, st) else (a, b)) :: setSession l sid st := rfl
    rw [hstep]
    by_cases hab : a = sid
    · rw [if_pos hab]
      have hne2 : ¬ a = sid2 := by rw [hab]; exact h
      show (if sid = sid2 then some st else lookupSession (setSession l sid st) sid2)
          = lookupSession ((a, b) :: l) sid2
      rw [if_neg h]
      show _ = (if a = sid2 then some b else lookupSession l sid2)
      rw [if_neg hne2]
      exact ih
    · rw [if_neg hab]
      show (if a = sid2 then some b else lookupSession (setSession l sid st) sid2)
          = (if a = sid2 then some b else lookupSession l sid2)
      by_cases hk : a = sid2
      · rw [if_pos hk, if_pos hk]
      · rw [if_neg hk, if_neg hk]; exact ih

/-- Looking up a freshly appended entry. -/
theorem lookupSession_append_self (cs : ConvState) (sid : String) (v : SessionState)
    (h : lookupSession cs sid = none) :
    lookupSession (cs ++ [(sid, v)]) sid = some v := by
  induction cs with
  | nil =>
    show (if sid = sid then some v else lookupSession [] sid) = some v
    rw [if_pos rfl]
  | cons p l ih =>
    obtain ⟨a, b⟩ := p
    by_cases hk : a = sid
    · exfalso
      have hsome : lookupSession ((a, b) :: l) sid = some b := by
        show (if a = sid then some b else lookupSession l sid) = some b
        rw [if_pos hk]
      rw [h] at hsome
      exact Option.noConfusion hsome
    · have h' : lookupSession l sid = none := by
        have hsame : lookupSession ((a, b) :: l) sid = lookupSession l sid := by
          show (if a = sid then some b else lookupSession l sid) = _
          rw [if_neg hk]
        rw [← hsame]
        exact h
      show (if a = sid then some b else lookupSession (l ++ [(sid, v)]) sid) = some v
      rw [if_neg hk]
      exact ih h'

/-! ### Claim theorems -/

/-- C1, counterexample: registering `(s1, Acme)` at `09:00` and then at
`14:30` (both valid at-times, so both calls succeed) leaves two Daily jobs
tagged `(s1, Acme)`, not exactly one — the scheduler appends on `do` and
never replaces same-tagged jobs. -/
theorem reregistration_not_idempotent_cex :
    (schedule_jobs { jobs := [] } 0 "s1" "Acme" "09:00").bind
        (fun sch1 => schedule_jobs sch1 0 "s1" "Acme" "14:30") = Except.ok schedTwice ∧
    ¬ (((taggedJobs schedTwice "s1" "Acme").filter
        (fun j => j.kind == JobKind.daily)).length = 1) := by
  constructor
  · rfl
  · decide

/-- C1, amended: for valid daily at-times `t1`, `t2` (the library's
validation: `HH:MM(:SS)` with hour at most 23 and minutes/seconds at most
59 — an invalid at-time instead raises `ScheduleValueError` and registers
nothing), calling `schedule(s, subj, t1)` and then `schedule(s, subj, t2)`
on a scheduler with no `(s, subj)`-tagged jobs succeeds and leaves exactly
two Daily and two Weekly jobs tagged `(s, subj)`, the Daily jobs due at
`t1` and `t2` in registration order: re-registration adds a second pair
rather than replacing the first. -/
theorem reregistration_appends (sch : Scheduler) (now1 now2 : Nat) (s subj t1 t2 : String)
    (h : taggedJobs sch s subj = [])
    (hv1 : isValidAtTime t1 = true) (hv2 : isValidAtTime t2 = true) :
    (schedule_jobs sch now1 s subj t1).bind
        (fun sch1 => schedule_jobs sch1 now2 s subj t2) =
      Except.ok { jobs := sch.jobs ++
        [mkDailyJob now1 s subj t1, mkWeeklyJob now1 s subj,
         mkDailyJob now2 s subj t2, mkWeeklyJob now2 s subj] } ∧
    taggedJobs { jobs := sch.jobs ++
        [mkDailyJob now1 s subj t1, mkWeeklyJob now1 s subj,
         mkDailyJob now2 s subj t2, mkWeeklyJob now2 s subj] } s subj =
      [mkDailyJob now1 s subj t1, mkWeeklyJob now1 s subj,
       mkDailyJob now2 s subj t2, mkWeeklyJob now2 s subj] ∧
    ((taggedJobs { jobs := sch.jobs ++
        [mkDailyJob now1 s subj t1, mkWeeklyJob now1 s subj,
         mkDailyJob now2 s subj t2, mkWeeklyJob now2 s subj] } s subj).filter
        (fun j => j.kind == JobKind.daily)).map (fun j => j.atTime) = [some t1, some t2] := by
  refine ⟨?_, ?_, ?_⟩
  · simp [schedule_jobs, hv1, hv2, Except.bind, List.append_assoc]
  · simp only [taggedJobs, List.filter_eq_nil_iff] at h
    simp_all [taggedJobs, List.filter_append, mkDailyJob, mkWeeklyJob]
  · simp only [taggedJobs, List.filter_eq_nil_iff] at h
    simp_all [taggedJobs, List.filter_append, mkDailyJob, mkWeeklyJob]

/-- C1, witness for the amended theorem: the two-registration run on an
empty scheduler leaves exactly the four appended jobs tagged
`(s1, Acme)`. -/
theorem reregistration_appends_witness :
    taggedJobs schedTwice "s1" "Acme" =
      [mkDailyJob 0 "s1" "Acme" "09:00", mkWeeklyJob 0 "s1" "Acme",
       mkDailyJob 0 "s1" "Acme" "14:30", mkWeeklyJob 0 "s1" "Acme"] :=
  (reregistration_appends { jobs := [] } 0 0 "s1" "Acme" "09:00" "14:30"
    (by decide) (by decide) (by decide)).2.1

/-- C5, counterexample: a scheduler holding only session `s2`'s jobs for
`Acme` has no job tagged `(s1, Acme)`, yet `cancel(s1, Acme)` is not a
no-op on it — the code clears by the subject tag alone. -/
theorem cancel_noop_cex :
    taggedJobs schedOnlyS2 "s1" "Acme" = [] ∧
    cancel schedOnlyS2 "s1" "Acme" ≠ schedOnlyS2 := by
  constructor
  · decide
  · decide

/-- C5, amended: after `cancel(s, subj)` no job carrying the subject tag
remains (both the Daily and the Weekly job for `(s, subj)` are removed),
`runDue` at any sequence of future times never dispatches a handler tagged
`(s, subj)`, and `cancel` is a no-op — never an error — when no job in the
scheduler carries the subject tag at all (merely having no
`(s, subj)`-tagged jobs is not enough, because clearing goes by the subject
tag alone and may remove other sessions' jobs for the same subject). -/
theorem cancel_completeness (sch : Scheduler) (s subj : String) (times : List Nat) :
    (∀ j ∈ (cancel sch s subj).jobs, j.tags.contains subj = false) ∧
    (∀ j ∈ (runDueSeq (cancel sch s subj) times).1,
        (j.tags.contains s && j.tags.contains subj) = false) ∧
    ((∀ j ∈ sch.jobs, j.tags.contains subj = false) → cancel sch s subj = sch) := by
  refine ⟨?_, ?_, ?_⟩
  · intro j hj; exact (mem_clearTag hj).2
  · intro j hj
    have hs := runDueSeq_no_tag times (cancel sch s subj)
      (fun j' hj' => (mem_clearTag hj').2) j hj
    have hns : subj ∉ j.tags := by simpa using hs
    simp [hns]
  · intro h; exact clearTag_eq_self h

/-- C5, witness: cancelling a subject with no jobs at all for it leaves the
scheduler unchanged. -/
theorem cancel_completeness_witness :
    cancel { jobs := [mkDailyJob 0 "s1" "BBB" "09:00"] } "s1" "Acme" =
      { jobs := [mkDailyJob 0 "s1" "BBB" "09:00"] } :=
  (cancel_completeness { jobs := [mkDailyJob 0 "s1" "BBB" "09:00"] } "s1" "Acme" []).2.2
    (by decide)

/-- C8 (confirmed): in the `awaiting_schedule_time` step, any input
containing a cancel keyword clears the PendingTask and returns the
setup-cancelled reply, regardless of any digits also present — the keyword
check precedes time parsing. -/
theorem awaiting_time_cancel_keyword (c : Collab) (now : Nat) (bot : NewsBot)
    (sid input : String) (st : SessionState) (task : PendingTask)
    (h : lookupSession bot.conv sid = some st)
    (ht : st.current_task = some task)
    (hs : task.step = Step.awaitingScheduleTime)
    (hk : containsAnyCancel input = true) :
    handle_message c now bot sid input =
      Except.ok (msg_setup_cancelled,
        { bot with conv := setSession bot.conv sid ({ st with current_task := none }) }) := by
  simp [handle_message, get_session_state, h, ht, hs, hk]

/-- C8, witness: the keyword check wins even when the input also carries
four digits. -/
theorem awaiting_time_cancel_keyword_witness :
    handle_message trivialCollab 0 botTimeStep "s1" "취소 0900" =
      Except.ok (msg_setup_cancelled,
        { botTimeStep with conv := (setSession botTimeStep.conv "s1"
            { schedules := [acmeSchedule], current_task := none }) }) :=
  awaiting_time_cancel_keyword trivialCollab 0 botTimeStep "s1" "취소 0900"
    { schedules := [acmeSchedule],
      current_task := some { step := Step.awaitingScheduleTime, company_name := some "Acme" } }
    { step := Step.awaitingScheduleTime, company_name := some "Acme" }
    (by rfl) (by rfl) (by rfl) (by decide)

/-- C3, counterexample: `handle_message` on a fresh session id returns the
fixed idle message but does create state — `_get_session_state` inserts a
default entry for the unknown session id before the task check. -/
theorem no_state_created_cex :
    handle_message trivialCollab 0 botFresh "s2" "hello" =
      Except.ok (msg_idle, { scheduler := { jobs := [] }, conv := [("s2", defaultSession)] }) ∧
    ([("s2", defaultSession)] : ConvState) ≠ ([] : ConvState) := by
  constructor
  · rfl
  · decide

/-- C3, amended: for a session id with no session entry, `handle_message`
returns the fixed idle message, and afterwards the store holds a default
entry (empty schedules, no task) for that id — the reply is as claimed but
a session entry is created. -/
theorem idle_reply_creates_default_entry (c : Collab) (now : Nat) (bot : NewsBot)
    (sid input : String)
    (h : lookupSession bot.conv sid = none) :
    handle_message c now bot sid input =
      Except.ok (msg_idle, { bot with conv := bot.conv ++ [(sid, defaultSession)] }) ∧
    lookupSession (bot.conv ++ [(sid, defaultSession)]) sid = some defaultSession := by
  constructor
  · simp [handle_message, get_session_state, h, defaultSession]
  · exact lookupSession_append_self bot.conv sid defaultSession h

/-- C3, witness: the fresh-session idle turn at a concrete input. -/
theorem idle_reply_creates_default_entry_witness :
    handle_message trivialCollab 0 botFresh "s2" "hello" =
      Except.ok (msg_idle, { botFresh with conv := botFresh.conv ++ [("s2", defaultSession)] }) ∧
    lookupSession (botFresh.conv ++ [("s2", defaultSession)]) "s2" = some defaultSession :=
  idle_reply_creates_default_entry trivialCollab 0 botFresh "s2" "hello" (by rfl)

/-- C6, counterexample: input `"99"` has exactly two digit characters and
parses to `"99:00"`, but the turn does not return a reply with that time —
the scheduler's at-time validation (`every().day.at("99:00")`) raises
`ScheduleValueError` and the turn errors instead of completing. -/
theorem time_parsing_raises_cex :
    (extractDigits "99").length = 2 ∧
    handle_message trivialCollab 0 botTimeStep "s1" "99" =
      Except.error "ScheduleValueError: invalid daily at-time" := by
  constructor
  · rfl
  · rfl

/-- C6, amended: in the `awaiting_schedule_time` step (no cancel keyword),
for all-ASCII inputs (Python `str.isdigit` would also count non-ASCII
Unicode digit characters): exactly 2 extracted digits parse to `DD:00` and
exactly 4 to the first two digits, a colon, then the last two; the turn
then completes with that time stored and its jobs registered only when the
parsed time passes the scheduler's at-time validation (`HH:MM` with hour at
most 23, minute at most 59), and otherwise (e.g. `"99"` → `"99:00"`) the
registration raises `ScheduleValueError` and the turn errors; for any other
digit count the reply is a format-error message and the bot — task and step
included — is unchanged. -/
theorem time_parsing (c : Collab) (now : Nat) (bot : NewsBot)
    (sid input cname : String) (st : SessionState) (task : PendingTask)
    (hascii : input.data.all (fun ch => ch.toNat < 128) = true)
    (h : lookupSession bot.conv sid = some st)
    (ht : st.current_task = some task)
    (hs : task.step = Step.awaitingScheduleTime)
    (hk : containsAnyCancel input = false)
    (hc : task.company_name = some cname) :
    ((extractDigits input).length = 2 →
      isValidAtTime (extractDigits input ++ ":00") = true →
      handle_message c now bot sid input =
        Except.ok ("알겠습니다. 매일 " ++ (extractDigits input ++ ":00") ++ "에 " ++ cname
              ++ " 뉴스를 보내드릴게요.",
          { scheduler := { jobs := bot.scheduler.jobs ++
              [mkDailyJob now sid cname (extractDigits input ++ ":00"),
               mkWeeklyJob now sid cname] },
            conv := (setSession bot.conv sid
              { st with
                schedules := st.schedules ++
                  [{ company_name := cname, schedule_time := extractDigits input ++ ":00" }],
                current_task := none }) })) ∧
    ((extractDigits input).length = 2 →
      isValidAtTime (extractDigits input ++ ":00") = false →
      handle_message c now bot sid input =
        Except.error "ScheduleValueError: invalid daily at-time") ∧
    ((extractDigits input).length = 4 →
      isValidAtTime ((extractDigits input).take 2 ++ ":" ++ (extractDigits input).drop 2) = true →
      handle_message c now bot sid input =
        Except.ok ("알겠습니다. 매일 "
              ++ ((extractDigits input).take 2 ++ ":" ++ (extractDigits input).drop 2) ++ "에 "
              ++ cname ++ " 뉴스를 보내드릴게요.",
          { scheduler := { jobs := bot.scheduler.jobs ++
              [mkDailyJob now sid cname
                ((extractDigits input).take 2 ++ ":" ++ (extractDigits input).drop 2),
               mkWeeklyJob now sid cname] },
            conv := (setSession bot.conv sid
              { st with
                schedules := st.schedules ++
                  [{ company_name := cname,
                     schedule_time := (extractDigits input).take 2 ++ ":"
                       ++ (extractDigits input).drop 2 }],
                current_task := none }) })) ∧
    ((extractDigits input).length = 4 →
      isValidAtTime ((extractDigits input).take 2 ++ ":" ++ (extractDigits input).drop 2)
          = false →
      handle_message c now bot sid input =
        Except.error "ScheduleValueError: invalid daily at-time") ∧
    ((extractDigits input).length ≠ 2 → (extractDigits input).length ≠ 4 →
      handle_message c now bot sid input = Except.ok (msg_time_format, bot)) := by
  refine ⟨?_, ?_, ?_, ?_, ?_⟩
  · intro h2 hv
    simp [handle_message, get_session_state, h, ht, hs, hk, h2, finish_scheduling, hc,
      schedule_jobs, hv, Bind.bind, Except.bind]
  · intro h2 hv
    simp [handle_message, get_session_state, h, ht, hs, hk, h2, finish_scheduling, hc,
      schedule_jobs, hv, Bind.bind, Except.bind]
  · intro h4 hv
    simp [handle_message, get_session_state, h, ht, hs, hk, h4, finish_scheduling, hc,
      schedule_jobs, hv, Bind.bind, Except.bind]
  · intro h4 hv
    simp [handle_message, get_session_state, h, ht, hs, hk, h4, finish_scheduling, hc,
      schedule_jobs, hv, Bind.bind, Except.bind]
  · intro hn2 hn4
    simp [handle_message, get_session_state, h, ht, hs, hk, hn2, hn4]

/-- C6, witness: input `"1430"` parses to the valid at-time `14:30` and
completes the scheduling dialogue. -/
theorem time_parsing_witness :
    handle_message trivialCollab 0 botTimeStep "s1" "1430" =
      Except.ok ("알겠습니다. 매일 "
            ++ ((extractDigits "1430").take 2 ++ ":" ++ (extractDigits "1430").drop 2) ++ "에 "
            ++ "Acme" ++ " 뉴스를 보내드릴게요.",
        { scheduler := { jobs := botTimeStep.scheduler.jobs ++
            [mkDailyJob 0 "s1" "Acme"
              ((extractDigits "1430").take 2 ++ ":" ++ (extractDigits "1430").drop 2),
             mkWeeklyJob 0 "s1" "Acme"] },
          conv := (setSession botTimeStep.conv "s1"
            { schedules := [acmeSchedule] ++
                [{ company_name := "Acme",
                   schedule_time := (extractDigits "1430").take 2 ++ ":"
                     ++ (extractDigits "1430").drop 2 }],
              current_task := none }) }) :=
  (time_parsing trivialCollab 0 botTimeStep "s1" "1430" "Acme"
    { schedules := [acmeSchedule],
      current_task := some { step := Step.awaitingScheduleTime, company_name := some "Acme" } }
    { step := Step.awaitingScheduleTime, company_name := some "Acme" }
    (by decide) (by rfl) (by rfl) (by rfl) (by decide) (by rfl)).2.2.1 (by decide) (by decide)

/-- C7 (confirmed): with schedules `[A, B, C]` in the
`awaiting_cancellation_choice` step, input `"2"` selects `B` (stores it as
the cancellation target and moves to confirmation), inputs `"0"` and `"4"`
yield the out-of-range reply with the bot unchanged, and the non-numeric
input `"x"` yields the enter-a-number reply with the bot unchanged. -/
theorem cancellation_choice_indexing (c : Collab) (now : Nat) (bot : NewsBot)
    (sid : String) (A B C : Schedule) (st : SessionState) (task : PendingTask)
    (h : lookupSession bot.conv sid = some st)
    (ht : st.current_task = some task)
    (hs : task.step = Step.awaitingCancellationChoice)
    (hsch : st.schedules = [A, B, C]) :
    (handle_message c now bot sid "2" =
      Except.ok (confirmCancelQuestion B.company_name,
        { bot with conv := (setSession bot.conv sid
            { st with current_task := some ({ task with
                step := Step.awaitingCancellationConfirmation,
                company_to_cancel := some B.company_name }) }) })) ∧
    (handle_message c now bot sid "0" = Except.ok (msg_bad_number, bot)) ∧
    (handle_message c now bot sid "4" = Except.ok (msg_bad_number, bot)) ∧
    (handle_message c now bot sid "x" = Except.ok (msg_enter_number, bot)) := by
  have p2 : pyInt "2" = some 2 := by rfl
  have p0 : pyInt "0" = some 0 := by rfl
  have p4 : pyInt "4" = some 4 := by rfl
  have px : pyInt "x" = none := by rfl
  refine ⟨?_, ?_, ?_, ?_⟩
  · simp [handle_message, get_session_state, h, ht, hs, hsch, p2, List.getD]
  · simp [handle_message, get_session_state, h, ht, hs, hsch, p0]
  · simp [handle_message, get_session_state, h, ht, hs, hsch, p4]
  · simp [handle_message, get_session_state, h, ht, hs, hsch, px]

/-- C7, witness: the three-schedule scenario at concrete inputs. -/
theorem cancellation_choice_indexing_witness :
    handle_message trivialCollab 0 botChoice "s1" "2" =
      Except.ok (confirmCancelQuestion schedB.company_name,
        { botChoice with conv := (setSession botChoice.conv "s1"
            { schedules := [schedA, schedB, schedC],
              current_task := some ({ step := Step.awaitingCancellationConfirmation,
                                      company_to_cancel := some schedB.company_name }) }) }) ∧
    handle_message trivialCollab 0 botChoice "s1" "x" = Except.ok (msg_enter_number, botChoice) :=
  ⟨(cancellation_choice_indexing trivialCollab 0 botChoice "s1" schedA schedB schedC
      { schedules := [schedA, schedB, schedC],
        current_task := some { step := Step.awaitingCancellationChoice } }
      { step := Step.awaitingCancellationChoice }
      (by rfl) (by rfl) (by rfl) (by rfl)).1,
   (cancellation_choice_indexing trivialCollab 0 botChoice "s1" schedA schedB schedC
      { schedules := [schedA, schedB, schedC],
        current_task := some { step := Step.awaitingCancellationChoice } }
      { step := Step.awaitingCancellationChoice }
      (by rfl) (by rfl) (by rfl) (by rfl)).2.2.2⟩

/-- C2, counterexample: when the News Store search raises, the Article
Summarizer does not catch it — the error propagates out of
`_fetch_and_summarize_latest_news` (there is no try/except in the source)
and through `handle_message` to the Conversation layer. -/
theorem summarizer_error_propagates_cex :
    fetch_and_summarize_latest_news errCollab "Acme" = Except.error "boom" ∧
    handle_message errCollab 0 botCompanyStep "s1" "Acme" = Except.error "boom" := by
  constructor
  · rfl
  · rfl

/-- C2, amended: the Article Summarizer converts empty/falsy collaborator
results into not-found / content-unavailable sentinel texts with
`found = false`, but it does not catch raised errors: an error raised by the
News Store search or by the Language Model Service propagates to the
caller. -/
theorem summarizer_sentinels_and_error_propagation (col : Collab) (company : String) :
    (col.searchNews company = Except.ok [] →
      fetch_and_summarize_latest_news col company =
        Except.ok ("관련 뉴스를 찾지 못했습니다.", false)) ∧
    (∀ a, col.searchNews company = Except.ok [a] → a.content = none →
      col.fetchContent (a.link.getD "") = Except.ok "" →
      fetch_and_summarize_latest_news col company =
        Except.ok ("\x27" ++ a.title.getD "제목 없음"
          ++ "\x27 뉴스의 본문 내용을 가져올 수 없어 요약에 실패했습니다.", false)) ∧
    (∀ e, col.searchNews company = Except.error e →
      fetch_and_summarize_latest_news col company = Except.error e) ∧
    (∀ a body e, col.searchNews company = Except.ok [a] → a.content = some body →
      body ≠ "" →
      col.llmRun (news_summary_prompt (a.title.getD "제목 없음") body (a.link.getD ""))
        = Except.error e →
      fetch_and_summarize_latest_news col company = Except.error e) := by
  refine ⟨?_, ?_, ?_, ?_⟩
  · intro h
    simp [fetch_and_summarize_latest_news, h, Bind.bind, Except.bind, pure, Except.pure]
  · intro a h hc hf
    simp [fetch_and_summarize_latest_news, h, hc, hf, pyOrStr, Bind.bind, Except.bind, pure,
      Except.pure]
  · intro e h
    simp [fetch_and_summarize_latest_news, h, Bind.bind, Except.bind]
  · intro a body e h hc hb hl
    simp [fetch_and_summarize_latest_news, h, hc, hb, hl, pyOrStr, Bind.bind, Except.bind, pure,
      Except.pure, Functor.map, Except.map]

/-- C2, witness: the empty-result sentinel and the propagated error at
concrete collaborators. -/
theorem summarizer_sentinels_witness :
    fetch_and_summarize_latest_news trivialCollab "Acme" =
      Except.ok ("관련 뉴스를 찾지 못했습니다.", false) ∧
    fetch_and_summarize_latest_news errCollab "Daeha" = Except.error "boom" :=
  ⟨(summarizer_sentinels_and_error_propagation trivialCollab "Acme").1 (by rfl),
   (summarizer_sentinels_and_error_propagation errCollab "Daeha").2.2.1 "boom" (by rfl)⟩

/-- C4, counterexample: completing the `awaiting_schedule_time` step for
`Acme` in a session that already has an `Acme` schedule leaves two Schedule
records with the same `subjectName` — the source appends and never
replaces. -/
theorem duplicate_schedule_cex :
    ((handle_message trivialCollab 0 botTimeStep "s1" "1430").toOption.bind
        (fun pr => lookupSession pr.2.conv "s1")).map
        (fun st => st.schedules.map (fun s => s.company_name)) = some ["Acme", "Acme"] ∧
    ¬ (["Acme", "Acme"] : List String).Nodup := by
  constructor
  · rfl
  · decide

/-- C4, amended: completing the `awaiting_schedule_time` step with an
all-ASCII input of exactly 4 digits whose parsed time passes the
scheduler's at-time validation appends a new Schedule record to the
session's list even when a record with the same `subjectName` is already
present, so the name then occurs at least twice — re-registration adds a
duplicate rather than replacing the prior Schedule (with an invalid parsed
time the registration raises instead, see the C6 theorems). -/
theorem completing_time_step_appends_schedule (c : Collab) (now : Nat) (bot : NewsBot)
    (sid input cname : String) (st : SessionState) (task : PendingTask)
    (hascii : input.data.all (fun ch => ch.toNat < 128) = true)
    (h : lookupSession bot.conv sid = some st)
    (ht : st.current_task = some task)
    (hs : task.step = Step.awaitingScheduleTime)
    (hk : containsAnyCancel input = false)
    (hc : task.company_name = some cname)
    (hd : (extractDigits input).length = 4)
    (hv : isValidAtTime ((extractDigits input).take 2 ++ ":" ++ (extractDigits input).drop 2)
        = true)
    (hdup : cname ∈ st.schedules.map (fun s => s.company_name)) :
    handle_message c now bot sid input =
      Except.ok ("알겠습니다. 매일 "
            ++ ((extractDigits input).take 2 ++ ":" ++ (extractDigits input).drop 2) ++ "에 "
            ++ cname ++ " 뉴스를 보내드릴게요.",
        { scheduler := { jobs := bot.scheduler.jobs ++
            [mkDailyJob now sid cname
              ((extractDigits input).take 2 ++ ":" ++ (extractDigits input).drop 2),
             mkWeeklyJob now sid cname] },
          conv := (setSession bot.conv sid
            { st with
              schedules := st.schedules ++
                [{ company_name := cname,
                   schedule_time := (extractDigits input).take 2 ++ ":"
                     ++ (extractDigits input).drop 2 }],
              current_task := none }) }) ∧
    2 ≤ ((st.schedules ++
        [({ company_name := cname,
            schedule_time := (extractDigits input).take 2 ++ ":"
              ++ (extractDigits input).drop 2 } : Schedule)]).map
          (fun s => s.company_name)).count cname := by
  constructor
  · simp [handle_message, get_session_state, h, ht, hs, hk, hd, finish_scheduling, hc,
      schedule_jobs, hv, Bind.bind, Except.bind]
  · rw [List.map_append, List.count_append]
    have h1 : 0 < (st.schedules.map (fun s => s.company_name)).count cname :=
      List.count_pos_iff.mpr hdup
    have h2 : List.count cname [cname] = 1 := by simp
    simp only [List.map_cons, List.map_nil]
    omega

/-- C4, witness: the duplicate-`Acme` run at the concrete valid input
`"0900"`. -/
theorem completing_time_step_appends_schedule_witness :
    handle_message trivialCollab 0 botTimeStep "s1" "0900" =
      Except.ok ("알겠습니다. 매일 "
            ++ ((extractDigits "0900").take 2 ++ ":" ++ (extractDigits "0900").drop 2) ++ "에 "
            ++ "Acme" ++ " 뉴스를 보내드릴게요.",
        { scheduler := { jobs := botTimeStep.scheduler.jobs ++
            [mkDailyJob 0 "s1" "Acme"
              ((extractDigits "0900").take 2 ++ ":" ++ (extractDigits "0900").drop 2),
             mkWeeklyJob 0 "s1" "Acme"] },
          conv := (setSession botTimeStep.conv "s1"
            { schedules := [acmeSchedule] ++
                [{ company_name := "Acme",
                   schedule_time := (extractDigits "0900").take 2 ++ ":"
                     ++ (extractDigits "0900").drop 2 }],
              current_task := none }) }) :=
  (completing_time_step_appends_schedule trivialCollab 0 botTimeStep "s1" "0900" "Acme"
    { schedules := [acmeSchedule],
      current_task := some { step := Step.awaitingScheduleTime, company_name := some "Acme" } }
    { step := Step.awaitingScheduleTime, company_name := some "Acme" }
    (by decide) (by rfl) (by rfl) (by rfl) (by decide) (by rfl) (by decide) (by decide)
    (by decide)).1

/-- C9 (confirmed): confirming cancellation of subject `X` in session
`s1` clears scheduler jobs by the subject tag alone — afterwards no job
anywhere carries tag `X`, including any other session `s2`'s Daily and
Weekly jobs for `X` — while `s2`'s session state, its Schedule record for
`X` included, is untouched. -/
theorem cancel_clears_subject_across_sessions (c : Collab) (now : Nat) (bot : NewsBot)
    (s1 s2 X : String) (hne : s1 ≠ s2)
    (st1 st2 : SessionState) (task : PendingTask)
    (h1 : lookupSession bot.conv s1 = some st1)
    (ht : st1.current_task = some task)
    (hs : task.step = Step.awaitingCancellationConfirmation)
    (hcto : task.company_to_cancel = some X)
    (h2 : lookupSession bot.conv s2 = some st2)
    (hX : X ∈ st2.schedules.map (fun s => s.company_name)) :
    handle_message c now bot s1 "네" =
      Except.ok (cancelledMsg X,
        { scheduler := clearTag bot.scheduler (some X),
          conv := (setSession bot.conv s1
            { st1 with
              schedules := st1.schedules.filter (fun s => !(some s.company_name == some X)),
              current_task := none }) }) ∧
    (∀ j ∈ (clearTag bot.scheduler (some X)).jobs, j.tags.contains X = false) ∧
    lookupSession (setSession bot.conv s1
        { st1 with
          schedules := st1.schedules.filter (fun s => !(some s.company_name == some X)),
          current_task := none }) s2 = some st2 ∧
    X ∈ st2.schedules.map (fun s => s.company_name) := by
  refine ⟨?_, ?_, ?_, hX⟩
  · have haff : affirmatives.contains (pyLower "네") = true := by rfl
    have haff2 : pyLower "네" ∈ affirmatives := by decide
    simp [handle_message, get_session_state, h1, ht, hs, hcto, haff, haff2, optRepr]
  · intro j hj
    exact (mem_clearTag hj).2
  · exact (lookupSession_setSession_ne bot.conv s1 s2 _ hne).trans h2

/-- C9, witness: the two-session scenario at concrete inputs. -/
theorem cancel_clears_subject_across_sessions_witness :
    handle_message trivialCollab 0 botTwoSessions "s1" "네" =
      Except.ok (cancelledMsg "Acme",
        { scheduler := clearTag botTwoSessions.scheduler (some "Acme"),
          conv := (setSession botTwoSessions.conv "s1"
            { schedules := [acmeSchedule].filter (fun s => !(some s.company_name == some "Acme")),
              current_task := none }) }) :=
  (cancel_clears_subject_across_sessions trivialCollab 0 botTwoSessions "s1" "s2" "Acme"
    (by decide)
    { schedules := [acmeSchedule],
      current_task := some { step := Step.awaitingCancellationConfirmation,
                             company_to_cancel := some "Acme" } }
    { schedules := [acmeSchedule], current_task := none }
    { step := Step.awaitingCancellationConfirmation, company_to_cancel := some "Acme" }
    (by rfl) (by rfl) (by rfl) (by rfl) (by rfl) (by decide)).1

/-- C10, counterexample: `trigger_weekly_report` on a session with
exactly one schedule and an in-progress dialogue returns the report-ran
reply and leaves the bot — the in-progress PendingTask included —
completely unchanged, so it does not unconditionally overwrite the current
task. -/
theorem trigger_report_preserves_task_cex :
    trigger_weekly_report botDialogWithSchedule "s1" =
      (reportTestDone "Acme", botDialogWithSchedule) ∧
    (lookupSession botDialogWithSchedule.conv "s1").map (fun st => st.current_task) =
      some (some { step := Step.awaitingCompanyName }) := by
  constructor
  · rfl
  · rfl

/-- C10, amended: `start_conversation` and `start_cancellation`
unconditionally overwrite the session's current task (with a new task, or
`none` when there is nothing to cancel); `trigger_weekly_report` overwrites
it only when the session has two or more schedules, and with zero or one
schedule it leaves the session — any in-progress dialogue included —
untouched.  At most one PendingTask per session holds structurally: it is a
single optional field. -/
theorem entry_point_task_overwrite (bot : NewsBot) (sid : String) (st : SessionState)
    (h : lookupSession bot.conv sid = some st) :
    (start_conversation bot sid =
      (msg_start, { bot with conv := (setSession bot.conv sid
          { st with current_task := some { step := Step.awaitingCompanyName } }) })) ∧
    (st.schedules = [] →
      start_cancellation bot sid =
        (msg_no_schedules, { bot with conv := (setSession bot.conv sid
            { st with current_task := none }) })) ∧
    (∀ s, st.schedules = [s] →
      start_cancellation bot sid =
        (confirmCancelQuestion s.company_name,
         { bot with conv := (setSession bot.conv sid
            { st with current_task := some ({ step := Step.awaitingCancellationConfirmation,
                                              company_to_cancel := some s.company_name }) }) })) ∧
    (∀ a b rest, st.schedules = a :: b :: rest →
      start_cancellation bot sid =
        ("어떤 스케줄을 취소하시겠습니까? 번호를 입력해주세요.\n" ++ scheduleOptions st.schedules,
         { bot with conv := (setSession bot.conv sid
            { st with current_task := some { step := Step.awaitingCancellationChoice } }) })) ∧
    (st.schedules = [] → trigger_weekly_report bot sid = (msg_register_first, bot)) ∧
    (∀ s, st.schedules = [s] →
      trigger_weekly_report bot sid = (reportTestDone s.company_name, bot)) ∧
    (∀ a b rest, st.schedules = a :: b :: rest →
      trigger_weekly_report bot sid =
        ("어떤 회사의 주간 보고서를 테스트하시겠습니까? 번호를 입력해주세요.\n" ++ companyOptions st.schedules,
         { bot with conv := (setSession bot.conv sid
            { st with current_task := some { step := Step.awaitingReportTestChoice } }) })) := by
  refine ⟨?_, ?_, ?_, ?_, ?_, ?_, ?_⟩
  · simp [start_conversation, get_session_state, h]
  · intro he
    simp [start_cancellation, get_session_state, h, he]
  · intro s hse
    simp [start_cancellation, get_session_state, h, hse]
  · intro a b rest hse
    simp [start_cancellation, get_session_state, h, hse]
  · intro he
    simp [trigger_weekly_report, get_session_state, h, he]
  · intro s hse
    simp [trigger_weekly_report, get_session_state, h, hse]
  · intro a b rest hse
    simp [trigger_weekly_report, get_session_state, h, hse]

/-- C10, witness: the one-schedule report trigger at concrete inputs. -/
theorem entry_point_task_overwrite_witness :
    trigger_weekly_report botDialogWithSchedule "s1" =
      (reportTestDone acmeSchedule.company_name, botDialogWithSchedule) :=
  (entry_point_task_overwrite botDialogWithSchedule "s1"
    { schedules := [acmeSchedule],
      current_task := some { step := Step.awaitingCompanyName } }
    (by rfl)).2.2.2.2.2.1 acmeSchedule (by rfl)
